import Mathlib

/-!
Verification of the chain-orchestration layer of `chatify`
(`src/chatify/chains.py`, class `CreateLLMChain`).

The Python class is embedded in state-passing style: each method becomes a
Lean function taking the instance record and returning its result together
with the (possibly updated) record.  Dictionary accesses that can raise
`KeyError` are embedded as `Except Err`.  The external collaborators that are
part of this repository but whose source is not available
(`chatify.llm_models.ModelsFactory`, `chatify.cache.LLMCacher`) and the
third-party prompt-template engine are modelled from the spec; each such
definition carries a doc comment saying so.
-/

namespace Chatify

/-- Model configurations are passed opaquely to the model provider; we embed
them as plain strings. -/
abbrev ModelConfig := String

/-- Modelled from the spec: `ModelsFactory.get_model` (in the missing
`src/chatify/llm_models.py`) builds a model handle from a model
configuration, and `LLMCacher.cache_llm` (in the missing
`src/chatify/cache.py`) wraps a model handle so its calls are memoized.
A `Model` value records how the handle was produced, so that handle identity
is observable. -/
inductive Model where
  | base (cfg : ModelConfig)
  | cached (m : Model)
deriving DecidableEq, Repr

/-- The `chain_config` section of the configuration mapping: the only key the
orchestrator reads from it is the optional `chain_type`. -/
structure ChainConfig where
  chain_type : Option String
deriving DecidableEq, Repr

/-- The `cache_config` section of the configuration mapping; `none` for the
`cache` field embeds a dictionary missing that key. -/
structure CacheConfig where
  cache : Option Bool
deriving DecidableEq, Repr

/-- The configuration mapping handed to `CreateLLMChain.__init__`; `none`
fields embed missing keys. -/
structure Config where
  chain_config : Option ChainConfig
  cache_config : Option CacheConfig
deriving DecidableEq, Repr

/-- Modelled from the spec: the cache object exposed as
`LLMCacher.llm_cache`; it is opaque to the orchestrator, which only attaches
it to model calls and flushes it, so we record just the configuration it was
built from. -/
structure CacheObj where
  cfg : Config
deriving DecidableEq, Repr

/-- Modelled from the spec: `LLMCacher` (missing `src/chatify/cache.py`) owns
the cache object `llm_cache`. -/
structure LLMCacher where
  llm_cache : CacheObj
deriving DecidableEq, Repr

/-- Modelled from the spec: `LLMCacher(config)` builds a cacher from the full
configuration mapping. -/
def mkLLMCacher (config : Config) : LLMCacher :=
  { llm_cache := { cfg := config } }

/-- Modelled from the spec: `ModelsFactory` (missing
`src/chatify/llm_models.py`) carries no observable state of its own. -/
structure ModelsFactory where
deriving DecidableEq, Repr

/-- Modelled from the spec: `ModelsFactory.get_model(model_config)` returns a
model handle built from the given configuration. -/
def ModelsFactory.get_model (_self : ModelsFactory) (cfg : ModelConfig) : Model :=
  Model.base cfg

/-- Modelled from the spec: `LLMCacher.cache_llm(llm)` wraps a model handle so
subsequent calls are memoized. -/
def LLMCacher.cache_llm (_self : LLMCacher) (m : Model) : Model :=
  Model.cached m

/-- The two chain classes from the source's factory table
`{'math': LLMMathChain, 'default': LLMChain}`. -/
inductive ChainClass where
  | LLMMathChain
  | LLMChain
deriving DecidableEq, Repr

/-- A prompt template, as built by `create_prompt`: the template string and
the declared input variables. -/
structure PromptTemplate where
  template : String
  input_variables : List String
deriving DecidableEq, Repr

/-- The prompt-specification dictionary consumed by `create_prompt`:
`prompt['content']` and `prompt['input_variables']`. -/
structure PromptSpec where
  content : String
  input_variables : List String
deriving DecidableEq, Repr

/-- A chain object: the selected chain class applied to keyword arguments
`llm=` and `prompt=`. -/
structure Chain where
  cls : ChainClass
  llm : Model
  prompt : PromptTemplate
deriving DecidableEq, Repr

/-- Errors surfaced by the orchestrator: Python `KeyError` from a dictionary
or factory-table lookup (the spec's `ConfigError` / `UnknownChainTypeError`),
and the strict-formatter failure from prompt rendering (the spec's
`TemplateError`). -/
inductive Err where
  | keyError (key : String)
  | formatError
deriving DecidableEq, Repr

/-- The instance state of `CreateLLMChain`: the fields assigned in
`__init__`. -/
structure CreateLLMChain where
  chain_config : ChainConfig
  llm_model : Option Model
  cache : Bool
  llm_models_factory : ModelsFactory
  cacher : LLMCacher
  chain_factory : List (String × ChainClass)
deriving DecidableEq, Repr

/-- `_setup_chain_factory`: the factory table
`{'math': LLMMathChain, 'default': LLMChain}`. -/
def setup_chain_factory : List (String × ChainClass) :=
  [("math", ChainClass.LLMMathChain), ("default", ChainClass.LLMChain)]

/-- `CreateLLMChain.__init__(config)`: reads `config['chain_config']` and
`config['cache_config']['cache']` (each missing key raises `KeyError`),
builds the models factory and the cacher, and installs the chain-factory
table. -/
def CreateLLMChain.init (config : Config) : Except Err CreateLLMChain :=
  match config.chain_config with
  | none => Except.error (Err.keyError "chain_config")
  | some cc =>
    match config.cache_config with
    | none => Except.error (Err.keyError "cache_config")
    | some cacheCfg =>
      match cacheCfg.cache with
      | none => Except.error (Err.keyError "cache")
      | some b =>
        Except.ok
          { chain_config := cc
            llm_model := none
            cache := b
            llm_models_factory := {}
            cacher := mkLLMCacher config
            chain_factory := setup_chain_factory }

/-- `create_prompt(prompt)`: builds a `PromptTemplate` from
`prompt['content']` and `prompt['input_variables']`; reads no instance field
and writes none, so the state is returned unchanged. -/
def CreateLLMChain.create_prompt (self : CreateLLMChain) (prompt : PromptSpec) :
    PromptTemplate × CreateLLMChain :=
  ({ template := prompt.content, input_variables := prompt.input_variables }, self)

/-- `create_chain(model_config, prompt_template)`: lazily builds the model
handle (cache-wrapping it when the cache flag is set), resolves `chain_type`
from `chain_config` with `'default'` as the `KeyError` fallback, looks the
type up in the factory table (an unknown key raises `KeyError`), and builds
the chain from the stored handle and a freshly created prompt template. -/
def CreateLLMChain.create_chain (self : CreateLLMChain) (model_config : ModelConfig)
    (prompt_template : PromptSpec) : Except Err Chain × CreateLLMChain :=
  let model : Model :=
    match self.llm_model with
    | some m => m
    | none =>
      let m := self.llm_models_factory.get_model model_config
      if self.cache then self.cacher.cache_llm m else m
  let self := { self with llm_model := some model }
  let chain_type : String :=
    match self.chain_config.chain_type with
    | some t => t
    | none => "default"
  match self.chain_factory.lookup chain_type with
  | none => (Except.error (Err.keyError chain_type), self)
  | some cls =>
    let (pt, self) := self.create_prompt prompt_template
    (Except.ok { cls := cls, llm := model, prompt := pt }, self)

/-- Modelled from the spec: placeholder substitution over the template's
characters — each `\x7bname\x7d` placeholder is replaced by the value bound
to `name`.  The recursion is driven by a fuel bound (the character count of
the template suffices, since every step consumes at least one character). -/
def substPlaceholders (vals : List (String × String)) :
    Nat → List Char → List Char
  | 0, _ => []
  | _ + 1, [] => []
  | fuel + 1, c :: cs =>
    if c = '\x7b' then
      ((vals.lookup ((cs.takeWhile (fun d => d ≠ '\x7d')).asString)).getD "").data
        ++ substPlaceholders vals fuel ((cs.dropWhile (fun d => d ≠ '\x7d')).drop 1)
    else c :: substPlaceholders vals fuel cs

/-- Modelled from the spec: the third-party `PromptTemplate.format(**kwargs)`
renders the template against the supplied named values with a strict
formatter: it fails unless the set of supplied variable names coincides with
the set of declared input variables, and otherwise substitutes each
placeholder. -/
def PromptTemplate.format (pt : PromptTemplate) (vals : List (String × String)) :
    Except Err String :=
  if pt.input_variables.all (fun v => (vals.lookup v).isSome)
      && vals.all (fun kv => pt.input_variables.contains kv.1) then
    Except.ok (substPlaceholders vals pt.template.data.length pt.template.data).asString
  else
    Except.error Err.formatError

/-- Observable external effects of `execute`: a direct model call (with the
cache object when one is attached), a chain invocation, and a cache flush. -/
inductive Event where
  | modelCall (m : Model) (input : String) (cacheObj : Option CacheObj)
  | chainCall (c : Chain) (input : String)
  | flush (c : CacheObj)
deriving DecidableEq, Repr

/-- Number of cache flushes in an event trace. -/
def flushCount (tr : List Event) : Nat :=
  (tr.filter fun e =>
    match e with
    | Event.flush _ => true
    | _ => false).length

/-- `execute(chain, inputs)`: on the cached path formats the chain's prompt
with the fixed keyword binding `text=inputs`, calls `chain.llm` on the
formatted text with `cache_obj=self.cacher.llm_cache`, flushes the cache and
returns the raw output; on the uncached path calls the chain itself on
`inputs` and returns the `'text'` field of the result mapping (a missing
field raises `KeyError`).  The behaviour of the external model and chain
calls is a parameter (`modelFn`, `chainFn`); the emitted event trace records
the external calls that happened. -/
def CreateLLMChain.execute (modelFn : Model → String → String)
    (chainFn : Chain → String → List (String × String))
    (self : CreateLLMChain) (chain : Chain) (inputs : String) :
    Except Err String × List Event :=
  if self.cache then
    match chain.prompt.format [("text", inputs)] with
    | Except.error e => (Except.error e, [])
    | Except.ok formatted =>
      let output := modelFn chain.llm formatted
      (Except.ok output,
        [Event.modelCall chain.llm formatted (some self.cacher.llm_cache),
         Event.flush self.cacher.llm_cache])
  else
    match (chainFn chain inputs).lookup "text" with
    | none => (Except.error (Err.keyError "text"), [Event.chainCall chain inputs])
    | some t => (Except.ok t, [Event.chainCall chain inputs])

/-- The model handle that `create_chain` stores: the existing one if already
set, otherwise a fresh one from the models factory, cache-wrapped when the
cache flag is set.  (This is the subterm of `create_chain` covering source
lines 69–73, factored out for the statements below.) -/
def storedModel (self : CreateLLMChain) (model_config : ModelConfig) : Model :=
  match self.llm_model with
  | some m => m
  | none =>
    let m := self.llm_models_factory.get_model model_config
    if self.cache then self.cacher.cache_llm m else m

/-- The chain type `create_chain` resolves: `chain_config['chain_type']` with
`'default'` as the `KeyError` fallback (source lines 75–78). -/
def chainTypeOf (s : CreateLLMChain) : String :=
  match s.chain_config.chain_type with
  | some t => t
  | none => "default"

/-- The state after any `create_chain` call: only `llm_model` is (possibly)
written, and it holds `storedModel`. -/
theorem create_chain_snd (s : CreateLLMChain) (cfg : ModelConfig) (p : PromptSpec) :
    (s.create_chain cfg p).2 = { s with llm_model := some (storedModel s cfg) } := by
  unfold CreateLLMChain.create_chain storedModel CreateLLMChain.create_prompt
  cases s.llm_model <;> dsimp only <;> split <;> rfl

/-- When the resolved chain type is absent from the factory table,
`create_chain` returns the raw `KeyError` for that key. -/
theorem create_chain_fst_none (s : CreateLLMChain) (cfg : ModelConfig) (p : PromptSpec)
    (h : s.chain_factory.lookup (chainTypeOf s) = none) :
    (s.create_chain cfg p).1 = Except.error (Err.keyError (chainTypeOf s)) := by
  unfold CreateLLMChain.create_chain CreateLLMChain.create_prompt
  unfold chainTypeOf at h ⊢
  cases s.llm_model <;> dsimp only <;> rw [h]

/-- When the resolved chain type is in the factory table, `create_chain`
returns a chain of that class, holding the stored model and a fresh prompt
template. -/
theorem create_chain_fst_some (s : CreateLLMChain) (cfg : ModelConfig) (p : PromptSpec)
    (cls : ChainClass)
    (h : s.chain_factory.lookup (chainTypeOf s) = some cls) :
    (s.create_chain cfg p).1 =
      Except.ok ⟨cls, storedModel s cfg, ⟨p.content, p.input_variables⟩⟩ := by
  unfold CreateLLMChain.create_chain storedModel CreateLLMChain.create_prompt
  unfold chainTypeOf at h
  cases s.llm_model <;> dsimp only <;> rw [h]

/-- C1: For every orchestrator instance, the model handle is constructed at
most once across any number of `create_chain` calls: the first call with
`llm_model` unset builds and stores it (cache-wrapped when the cache flag is
enabled), and every later `create_chain` call reuses that stored handle
unchanged even when passed a different `modelConfig` — the first
configuration wins. -/
theorem create_chain_builds_model_at_most_once (s : CreateLLMChain)
    (h : s.llm_model = none) (cfg1 : ModelConfig) (p1 : PromptSpec) :
    (s.create_chain cfg1 p1).2.llm_model =
      some (if s.cache then s.cacher.cache_llm (s.llm_models_factory.get_model cfg1)
            else s.llm_models_factory.get_model cfg1) ∧
    ∀ (s' : CreateLLMChain) (m : Model), s'.llm_model = some m →
      ∀ (cfg : ModelConfig) (p : PromptSpec),
        (s'.create_chain cfg p).2.llm_model = some m ∧
        ∀ c : Chain, (s'.create_chain cfg p).1 = Except.ok c → c.llm = m := by
  constructor
  · rw [create_chain_snd]
    dsimp only
    unfold storedModel
    rw [h]
  · intro s' m hm cfg p
    have hst : storedModel s' cfg = m := by unfold storedModel; rw [hm]
    constructor
    · rw [create_chain_snd]
      dsimp only
      rw [hst]
    · intro c hc
      rcases hl : s'.chain_factory.lookup (chainTypeOf s') with _ | cls
      · rw [create_chain_fst_none s' cfg p hl] at hc
        cases hc
      · rw [create_chain_fst_some s' cfg p cls hl] at hc
        cases hc
        exact hst

/-- A configuration used for concrete witnesses. -/
def exampleConfig : Config :=
  { chain_config := some { chain_type := none }
    cache_config := some { cache := some true } }

/-- A freshly initialized orchestrator (cache enabled, no `chain_type`),
used for concrete witnesses. -/
def exampleState : CreateLLMChain :=
  { chain_config := { chain_type := none }
    llm_model := none
    cache := true
    llm_models_factory := {}
    cacher := mkLLMCacher exampleConfig
    chain_factory := setup_chain_factory }

/-- A prompt specification used for concrete witnesses. -/
def examplePrompt : PromptSpec :=
  { content := "Q: \x7btext\x7d", input_variables := ["text"] }

/-- Witness for C1 at a concrete fresh orchestrator and two different model
configurations. -/
theorem create_chain_builds_model_at_most_once_witness :
    (exampleState.create_chain "m1" examplePrompt).2.llm_model =
      some (Model.cached (Model.base "m1")) ∧
    ((exampleState.create_chain "m1" examplePrompt).2.create_chain "m2"
        examplePrompt).2.llm_model = some (Model.cached (Model.base "m1")) := by
  have h := create_chain_builds_model_at_most_once exampleState rfl "m1" examplePrompt
  refine ⟨h.1, ?_⟩
  exact (h.2 (exampleState.create_chain "m1" examplePrompt).2
    (Model.cached (Model.base "m1")) h.1 "m2" examplePrompt).1

/-- Formatting a prompt template with the single binding `text=inputs`
succeeds exactly when the template's declared input variables, as a set, are
exactly `{"text"}`. -/
theorem format_text_ok_iff (pt : PromptTemplate) (inputs : String) :
    (∃ f, pt.format [("text", inputs)] = Except.ok f) ↔
      pt.input_variables.toFinset = {"text"} := by
  unfold PromptTemplate.format
  constructor
  · intro ⟨f, hf⟩
    split at hf
    case isTrue hcond =>
      simp only [Bool.and_eq_true, List.all_eq_true] at hcond
      obtain ⟨h1, h2⟩ := hcond
      have htext : "text" ∈ pt.input_variables := by
        have := h2 ("text", inputs) (by simp)
        simpa [List.contains] using this
      have hall : ∀ v ∈ pt.input_variables, v = "text" := by
        intro v hv
        have := h1 v hv
        simp only [List.lookup] at this
        by_contra hne
        rw [show (v == "text") = false from beq_eq_false_iff_ne.mpr hne] at this
        simp at this
      ext x
      simp only [List.mem_toFinset, Finset.mem_singleton]
      exact ⟨fun hx => hall x hx, fun hx => hx ▸ htext⟩
    case isFalse => cases hf
  · intro hset
    have htext : "text" ∈ pt.input_variables := by
      rw [← List.mem_toFinset, hset]; simp
    have hall : ∀ v ∈ pt.input_variables, v = "text" := by
      intro v hv
      have : v ∈ pt.input_variables.toFinset := List.mem_toFinset.mpr hv
      rw [hset] at this; simpa using this
    rw [if_pos]
    · exact ⟨_, rfl⟩
    · simp only [Bool.and_eq_true, List.all_eq_true]
      constructor
      · intro v hv
        rw [hall v hv]
        simp [List.lookup]
      · intro kv hkv
        simp only [List.mem_singleton] at hkv
        subst hkv
        simpa [List.contains] using htext

/-- Formatting with the single binding `text=inputs` fails with the
strict-formatter error whenever the declared input variables are not exactly
the set `{"text"}`. -/
theorem format_text_error (pt : PromptTemplate) (inputs : String)
    (h : pt.input_variables.toFinset ≠ {"text"}) :
    pt.format [("text", inputs)] = Except.error Err.formatError := by
  rcases hcase : pt.format [("text", inputs)] with e | f
  · unfold PromptTemplate.format at hcase
    split at hcase
    · cases hcase
    · cases hcase; rfl
  · exact absurd ((format_text_ok_iff pt inputs).mp ⟨f, hcase⟩) h

/-- C2: For every chain and input text, when the cache flag is enabled,
`execute` formats the chain's prompt template against the input text, invokes
the model directly with the cache object attached, calls the cache's
`flush()` exactly once, and returns the raw model output. -/
theorem execute_cached_path (modelFn : Model → String → String)
    (chainFn : Chain → String → List (String × String))
    (s : CreateLLMChain) (chain : Chain) (inputs formatted : String)
    (hc : s.cache = true)
    (hfmt : chain.prompt.format [("text", inputs)] = Except.ok formatted) :
    s.execute modelFn chainFn chain inputs =
      (Except.ok (modelFn chain.llm formatted),
       [Event.modelCall chain.llm formatted (some s.cacher.llm_cache),
        Event.flush s.cacher.llm_cache]) ∧
    flushCount (s.execute modelFn chainFn chain inputs).2 = 1 := by
  have heq : s.execute modelFn chainFn chain inputs =
      (Except.ok (modelFn chain.llm formatted),
       [Event.modelCall chain.llm formatted (some s.cacher.llm_cache),
        Event.flush s.cacher.llm_cache]) := by
    unfold CreateLLMChain.execute
    rw [hc]
    simp only [if_true]
    rw [hfmt]
  exact ⟨heq, by rw [heq]; rfl⟩

/-- The model-call function used for concrete witnesses. -/
def exampleModelFn : Model → String → String := fun _ t => t ++ " out"

/-- The chain-invocation function used for concrete witnesses: returns a
result mapping containing the key `"text"`. -/
def exampleChainFn : Chain → String → List (String × String) :=
  fun _ t => [("text", t ++ " chained")]

/-- A concrete chain used for witnesses, with the single prompt variable
`"text"`. -/
def exampleChain : Chain :=
  { cls := ChainClass.LLMChain
    llm := Model.cached (Model.base "m1")
    prompt := { template := "Q: \x7btext\x7d", input_variables := ["text"] } }

/-- Witness for C2 at a concrete cached orchestrator, chain and input. -/
theorem execute_cached_path_witness :
    exampleState.execute exampleModelFn exampleChainFn exampleChain "2+2" =
      (Except.ok "Q: 2+2 out",
       [Event.modelCall (Model.cached (Model.base "m1")) "Q: 2+2"
          (some exampleState.cacher.llm_cache),
        Event.flush exampleState.cacher.llm_cache]) ∧
    flushCount
      (exampleState.execute exampleModelFn exampleChainFn exampleChain "2+2").2 = 1 := by
  have h := execute_cached_path exampleModelFn exampleChainFn exampleState exampleChain
    "2+2" "Q: 2+2" rfl (by rfl)
  exact ⟨h.1, h.2⟩

/-- A concrete orchestrator with caching disabled, used for witnesses. -/
def exampleStateNoCache : CreateLLMChain :=
  { exampleState with cache := false }

/-- C3: For every chain and input text, when the cache flag is disabled,
`execute` invokes the chain itself with the input text and returns the
`"text"` field of the chain's result mapping, and the cache's `flush()` is
never called on this path. -/
theorem execute_uncached_path (modelFn : Model → String → String)
    (chainFn : Chain → String → List (String × String))
    (s : CreateLLMChain) (chain : Chain) (inputs : String)
    (hc : s.cache = false) :
    (s.execute modelFn chainFn chain inputs).2 = [Event.chainCall chain inputs] ∧
    flushCount (s.execute modelFn chainFn chain inputs).2 = 0 ∧
    ∀ t, (chainFn chain inputs).lookup "text" = some t →
      (s.execute modelFn chainFn chain inputs).1 = Except.ok t := by
  rcases hl : (chainFn chain inputs).lookup "text" with _ | t'
  · simp [CreateLLMChain.execute, hc, hl, flushCount]
  · simp [CreateLLMChain.execute, hc, hl, flushCount]

/-- Witness for C3 at a concrete uncached orchestrator, chain and input. -/
theorem execute_uncached_path_witness :
    (exampleStateNoCache.execute exampleModelFn exampleChainFn exampleChain "2+2").2 =
      [Event.chainCall exampleChain "2+2"] ∧
    flushCount
      (exampleStateNoCache.execute exampleModelFn exampleChainFn exampleChain "2+2").2 = 0 ∧
    (exampleStateNoCache.execute exampleModelFn exampleChainFn exampleChain "2+2").1 =
      Except.ok "2+2 chained" := by
  have h := execute_uncached_path exampleModelFn exampleChainFn exampleStateNoCache
    exampleChain "2+2" rfl
  exact ⟨h.1, h.2.1, h.2.2 "2+2 chained" rfl⟩

/-- C9: On the cached path, `execute` formats the prompt by binding the
single placeholder named `"text"` to the input; its outcome is entirely that
of `format` at the binding list `[("text", inputs)]`, and for every chain
whose prompt's declared input variables are not exactly the set `{"text"}`,
the cached `execute` fails at the formatting step regardless of the input. -/
theorem execute_cached_text_binding (modelFn : Model → String → String)
    (chainFn : Chain → String → List (String × String))
    (s : CreateLLMChain) (chain : Chain) (inputs : String)
    (hc : s.cache = true) :
    (∀ e, chain.prompt.format [("text", inputs)] = Except.error e →
      s.execute modelFn chainFn chain inputs = (Except.error e, [])) ∧
    (∀ f, chain.prompt.format [("text", inputs)] = Except.ok f →
      s.execute modelFn chainFn chain inputs =
        (Except.ok (modelFn chain.llm f),
         [Event.modelCall chain.llm f (some s.cacher.llm_cache),
          Event.flush s.cacher.llm_cache])) ∧
    (chain.prompt.input_variables.toFinset ≠ {"text"} →
      s.execute modelFn chainFn chain inputs = (Except.error Err.formatError, [])) := by
  refine ⟨?_, ?_, ?_⟩
  · intro e he
    unfold CreateLLMChain.execute
    rw [hc]
    simp only [if_true]
    rw [he]
  · intro f hf
    unfold CreateLLMChain.execute
    rw [hc]
    simp only [if_true]
    rw [hf]
  · intro hvars
    unfold CreateLLMChain.execute
    rw [hc]
    simp only [if_true]
    rw [format_text_error chain.prompt inputs hvars]

/-- A concrete chain whose prompt variables are not `{"text"}`, used for the
C9 witness. -/
def exampleChainQ : Chain :=
  { cls := ChainClass.LLMChain
    llm := Model.cached (Model.base "m1")
    prompt := { template := "Q: \x7bq\x7d", input_variables := ["q"] } }

/-- Witness for C9: a cached execution against a prompt whose only variable
is `"q"` fails at the formatting step. -/
theorem execute_cached_text_binding_witness :
    exampleState.execute exampleModelFn exampleChainFn exampleChainQ "2+2" =
      (Except.error Err.formatError, []) := by
  have h := execute_cached_text_binding exampleModelFn exampleChainFn exampleState
    exampleChainQ "2+2" rfl
  exact h.2.2 (by decide)

/-- Looking up a key outside `{"math", "default"}` in the factory table
fails. -/
theorem lookup_setup_none (t : String) (hm : t ≠ "math") (hd : t ≠ "default") :
    setup_chain_factory.lookup t = none := by
  unfold setup_chain_factory
  simp only [List.lookup]
  rw [show (t == "math") = false from beq_eq_false_iff_ne.mpr hm,
    show (t == "default") = false from beq_eq_false_iff_ne.mpr hd]

/-- C4: For every configuration whose `chain_config` mapping lacks the key
`chain_type`, `create_chain` selects the default/generic chain factory
(`LLMChain`) without raising an error — the missing key is treated as the
value `"default"`, not as a failure. -/
theorem create_chain_missing_type_defaults (s : CreateLLMChain)
    (h : s.chain_config.chain_type = none)
    (hf : s.chain_factory = setup_chain_factory)
    (cfg : ModelConfig) (p : PromptSpec) :
    (s.create_chain cfg p).1 =
      Except.ok ⟨ChainClass.LLMChain, storedModel s cfg,
        ⟨p.content, p.input_variables⟩⟩ := by
  have hct : chainTypeOf s = "default" := by unfold chainTypeOf; rw [h]
  have hl : s.chain_factory.lookup (chainTypeOf s) = some ChainClass.LLMChain := by
    rw [hf, hct]; rfl
  exact create_chain_fst_some s cfg p _ hl

/-- Witness for C4 at a concrete orchestrator whose `chain_config` lacks
`chain_type`. -/
theorem create_chain_missing_type_defaults_witness :
    (exampleState.create_chain "m1" examplePrompt).1 =
      Except.ok ⟨ChainClass.LLMChain, Model.cached (Model.base "m1"),
        ⟨"Q: \x7btext\x7d", ["text"]⟩⟩ :=
  create_chain_missing_type_defaults exampleState rfl rfl "m1" examplePrompt

/-- C5: For every configuration with `chain_config.chain_type` equal to
`"math"`, `create_chain` builds the chain using the math chain factory
(`LLMMathChain`, not the generic/default factory), passing it the stored
model handle and a freshly built prompt template. -/
theorem create_chain_math_type (s : CreateLLMChain)
    (h : s.chain_config.chain_type = some "math")
    (hf : s.chain_factory = setup_chain_factory)
    (cfg : ModelConfig) (p : PromptSpec) :
    (s.create_chain cfg p).1 =
      Except.ok ⟨ChainClass.LLMMathChain, storedModel s cfg,
        ⟨p.content, p.input_variables⟩⟩ ∧
    (s.create_chain cfg p).2.llm_model = some (storedModel s cfg) := by
  have hct : chainTypeOf s = "math" := by unfold chainTypeOf; rw [h]
  have hl : s.chain_factory.lookup (chainTypeOf s) = some ChainClass.LLMMathChain := by
    rw [hf, hct]; rfl
  refine ⟨create_chain_fst_some s cfg p _ hl, ?_⟩
  rw [create_chain_snd]

/-- A concrete orchestrator whose `chain_config` sets `chain_type` to
`"math"`, used for witnesses. -/
def exampleStateMath : CreateLLMChain :=
  { exampleState with chain_config := { chain_type := some "math" } }

/-- Witness for C5 at a concrete orchestrator with `chain_type = "math"`. -/
theorem create_chain_math_type_witness :
    (exampleStateMath.create_chain "m1" examplePrompt).1 =
      Except.ok ⟨ChainClass.LLMMathChain, Model.cached (Model.base "m1"),
        ⟨"Q: \x7btext\x7d", ["text"]⟩⟩ ∧
    (exampleStateMath.create_chain "m1" examplePrompt).2.llm_model =
      some (Model.cached (Model.base "m1")) :=
  create_chain_math_type exampleStateMath rfl rfl "m1" examplePrompt

/-- C6: For every configuration where `chain_config.chain_type` is present
but its value is outside `{"math", "default"}`, `create_chain` fails with a
raw lookup (key) error from the factory table rather than returning a chain
or wrapping the error. -/
theorem create_chain_unknown_type_keyerror (s : CreateLLMChain) (t : String)
    (h : s.chain_config.chain_type = some t)
    (hm : t ≠ "math") (hd : t ≠ "default")
    (hf : s.chain_factory = setup_chain_factory)
    (cfg : ModelConfig) (p : PromptSpec) :
    (s.create_chain cfg p).1 = Except.error (Err.keyError t) := by
  have hct : chainTypeOf s = t := by unfold chainTypeOf; rw [h]
  have hl : s.chain_factory.lookup (chainTypeOf s) = none := by
    rw [hf, hct]
    exact lookup_setup_none t hm hd
  rw [create_chain_fst_none s cfg p hl, hct]

/-- A concrete orchestrator whose `chain_config` sets `chain_type` to an
unknown value, used for witnesses. -/
def exampleStateWeird : CreateLLMChain :=
  { exampleState with chain_config := { chain_type := some "weird" } }

/-- Witness for C6 at a concrete orchestrator with `chain_type = "weird"`. -/
theorem create_chain_unknown_type_keyerror_witness :
    (exampleStateWeird.create_chain "m1" examplePrompt).1 =
      Except.error (Err.keyError "weird") :=
  create_chain_unknown_type_keyerror exampleStateWeird "weird" rfl
    (by decide) (by decide) rfl "m1" examplePrompt

/-- The orchestrator state produced by a successful `__init__` on a
configuration holding `cc` under `chain_config` and `b` under
`cache_config.cache`. -/
def initState (cc : ChainConfig) (b : Bool) (config : Config) : CreateLLMChain :=
  { chain_config := cc, llm_model := none, cache := b, llm_models_factory := {},
    cacher := mkLLMCacher config, chain_factory := setup_chain_factory }

/-- C7: Initialization fails with the configuration key error for every
configuration mapping missing the key `chain_config` or missing the key
`cache` under `cache_config`; when both are present, initialization succeeds
and stores `chain_config` and the cache flag. -/
theorem init_requires_config_keys (config : Config) :
    (config.chain_config = none →
      CreateLLMChain.init config = Except.error (Err.keyError "chain_config")) ∧
    (∀ cc : ChainConfig, config.chain_config = some cc →
      config.cache_config = none →
      CreateLLMChain.init config = Except.error (Err.keyError "cache_config")) ∧
    (∀ cc : ChainConfig, ∀ cacheCfg : CacheConfig,
      config.chain_config = some cc → config.cache_config = some cacheCfg →
      cacheCfg.cache = none →
      CreateLLMChain.init config = Except.error (Err.keyError "cache")) ∧
    (∀ cc : ChainConfig, ∀ cacheCfg : CacheConfig, ∀ b : Bool,
      config.chain_config = some cc → config.cache_config = some cacheCfg →
      cacheCfg.cache = some b →
      CreateLLMChain.init config = Except.ok (initState cc b config)) := by
  refine ⟨?_, ?_, ?_, ?_⟩
  · intro h
    unfold CreateLLMChain.init
    rw [h]
  · intro cc h1 h2
    unfold CreateLLMChain.init
    rw [h1, h2]
  · intro cc cacheCfg h1 h2 h3
    unfold CreateLLMChain.init
    rw [h1, h2]
    dsimp only
    rw [h3]
  · intro cc cacheCfg b h1 h2 h3
    unfold CreateLLMChain.init initState
    rw [h1, h2]
    dsimp only
    rw [h3]

/-- Witness for C7: a configuration missing `chain_config` is rejected, one
missing `cache` under `cache_config` is rejected, and a complete
configuration initializes successfully. -/
theorem init_requires_config_keys_witness :
    CreateLLMChain.init
        { chain_config := none, cache_config := some { cache := some true } } =
      Except.error (Err.keyError "chain_config") ∧
    CreateLLMChain.init
        { chain_config := some { chain_type := none },
          cache_config := some { cache := none } } =
      Except.error (Err.keyError "cache") ∧
    CreateLLMChain.init exampleConfig =
      Except.ok (initState { chain_type := none } true exampleConfig) :=
  ⟨(init_requires_config_keys _).1 rfl,
   (init_requires_config_keys _).2.2.1 { chain_type := none } { cache := none }
     rfl rfl rfl,
   (init_requires_config_keys exampleConfig).2.2.2 { chain_type := none }
     { cache := some true } true rfl rfl rfl⟩

/-- C8: For every prompt spec, `create_prompt` is pure construction: it
returns a `PromptTemplate` built from the spec's `content` and
`input_variables`, and leaves every field of the orchestrator state
(`chain_config`, `llm_model`, cache flag, cacher, chain factory table)
unchanged. -/
theorem create_prompt_pure (s : CreateLLMChain) (p : PromptSpec) :
    (s.create_prompt p).1 =
      { template := p.content, input_variables := p.input_variables } ∧
    (s.create_prompt p).2 = s ∧
    (s.create_prompt p).2.chain_config = s.chain_config ∧
    (s.create_prompt p).2.llm_model = s.llm_model ∧
    (s.create_prompt p).2.cache = s.cache ∧
    (s.create_prompt p).2.cacher = s.cacher ∧
    (s.create_prompt p).2.chain_factory = s.chain_factory :=
  ⟨rfl, rfl, rfl, rfl, rfl, rfl, rfl⟩

/-- A later `create_chain` call on a state whose model handle is already set
gives the same result whatever model configuration it is passed. -/
theorem create_chain_config_irrelevant (s' : CreateLLMChain) (m : Model)
    (hm : s'.llm_model = some m) (cfgA cfgB : ModelConfig) (p : PromptSpec) :
    s'.create_chain cfgA p = s'.create_chain cfgB p := by
  have ha : storedModel s' cfgA = m := by unfold storedModel; rw [hm]
  have hb : storedModel s' cfgB = m := by unfold storedModel; rw [hm]
  apply Prod.ext
  · rcases hl : s'.chain_factory.lookup (chainTypeOf s') with _ | cls
    · rw [create_chain_fst_none s' cfgA p hl, create_chain_fst_none s' cfgB p hl]
    · rw [create_chain_fst_some s' cfgA p cls hl,
        create_chain_fst_some s' cfgB p cls hl, ha, hb]
  · rw [create_chain_snd, create_chain_snd, ha, hb]

/-- C10: `create_chain` is not atomic on error: when it fails because
`chain_type` is present but unknown, the model handle has already been built
and stored in `llm_model` before the lookup failure, so a subsequent
`create_chain` call reuses that handle and ignores its own `modelConfig`. -/
theorem create_chain_not_atomic (s : CreateLLMChain) (t : String)
    (h0 : s.llm_model = none)
    (h : s.chain_config.chain_type = some t)
    (hm : t ≠ "math") (hd : t ≠ "default")
    (hf : s.chain_factory = setup_chain_factory)
    (cfg1 cfg2 : ModelConfig) (p1 p2 : PromptSpec) :
    (s.create_chain cfg1 p1).1 = Except.error (Err.keyError t) ∧
    (s.create_chain cfg1 p1).2.llm_model =
      some (if s.cache then s.cacher.cache_llm (s.llm_models_factory.get_model cfg1)
            else s.llm_models_factory.get_model cfg1) ∧
    ((s.create_chain cfg1 p1).2.create_chain cfg2 p2).2.llm_model =
      (s.create_chain cfg1 p1).2.llm_model ∧
    (s.create_chain cfg1 p1).2.create_chain cfg2 p2 =
      (s.create_chain cfg1 p1).2.create_chain cfg1 p2 := by
  have hst : storedModel s cfg1 =
      if s.cache then s.cacher.cache_llm (s.llm_models_factory.get_model cfg1)
      else s.llm_models_factory.get_model cfg1 := by
    unfold storedModel; rw [h0]
  have hs1 : (s.create_chain cfg1 p1).2.llm_model = some (storedModel s cfg1) := by
    rw [create_chain_snd]
  refine ⟨?_, ?_, ?_, ?_⟩
  · have hct : chainTypeOf s = t := by unfold chainTypeOf; rw [h]
    have hl : s.chain_factory.lookup (chainTypeOf s) = none := by
      rw [hf, hct]
      exact lookup_setup_none t hm hd
    rw [create_chain_fst_none s cfg1 p1 hl, hct]
  · rw [hs1, hst]
  · rw [create_chain_snd]
    dsimp only
    rw [hs1]
    unfold storedModel
    rw [hs1]
    rfl
  · exact create_chain_config_irrelevant _ (storedModel s cfg1) hs1 cfg2 cfg1 p2

/-- A concrete orchestrator with an unknown `chain_type` and no model handle
yet, used for the C10 witness. -/
def exampleStateWeirdFresh : CreateLLMChain := exampleStateWeird

/-- Witness for C10: the failing `create_chain` call on a fresh orchestrator
with `chain_type = "weird"` has already stored the model handle built from
its own configuration, and the next call keeps that handle. -/
theorem create_chain_not_atomic_witness :
    (exampleStateWeirdFresh.create_chain "m1" examplePrompt).1 =
      Except.error (Err.keyError "weird") ∧
    (exampleStateWeirdFresh.create_chain "m1" examplePrompt).2.llm_model =
      some (Model.cached (Model.base "m1")) ∧
    ((exampleStateWeirdFresh.create_chain "m1" examplePrompt).2.create_chain "m2"
        examplePrompt).2.llm_model = some (Model.cached (Model.base "m1")) := by
  have hw := create_chain_not_atomic exampleStateWeirdFresh "weird" rfl rfl
    (by decide) (by decide) rfl "m1" "m2" examplePrompt examplePrompt
  exact ⟨hw.1, hw.2.1, by rw [hw.2.2.1]; exact hw.2.1⟩

end Chatify
